import Mathlib

/-!
Verification development for the DrScratch console-analyzer scripts
(`console_analyzer.py`, `console_analyzer_multiprocess.py`,
`console_analyzer_with_metadata.py`, `extract_scratch_meta.py`).

The Python sources are shallowly embedded: dictionaries whose key sets are
fixed by the code become Lean structures; CSV rows (ordered dictionaries)
become association lists `List (String × Val)`; raised exceptions become
`Except String`; external collaborators (file system, archive decoding, the
MetricEngine plugins, the Scratch web API) become explicit oracle
parameters recording what each call would return.
-/

/-- Scalar cell values appearing in CSV rows (Python scalars; `vNone` is
Python `None`). -/
inductive Val where
  | vStr (s : String)
  | vNat (n : Nat)
  | vInt (n : Int)
  | vBool (b : Bool)
  | vNone
deriving DecidableEq, Repr

/-- A CSV row: an insertion-ordered Python dict from column name to value. -/
abbrev Row := List (String × Val)

/-- Python `dict.__setitem__`: update the value in place if the key exists,
otherwise append the new key at the end. -/
def setItem (r : Row) (k : String) (v : Val) : Row :=
  if (r.lookup k).isSome then
    r.map (fun p => if p.1 = k then (k, v) else p)
  else r ++ [(k, v)]

/-- Python `dict.update`: existing keys keep their position and take the new
value; keys new to the receiver are appended in the argument's order. -/
def dictUpdate (r upd : Row) : Row :=
  (r.map fun p =>
    match upd.lookup p.1 with
    | some v => (p.1, v)
    | none => p)
  ++ upd.filter (fun q => (r.lookup q.1).isNone)

/-- Position of the last dot in a character list, if any. -/
def lastDotPos (cs : List Char) : Option Nat :=
  (cs.foldl (fun (st : Nat × Option Nat) c =>
    (st.1 + 1, if c = '.' then some st.1 else st.2)) (0, none)).2

/-- Python `os.path.splitext` restricted to bare file names: split at the
last dot, except that a dot with only dots before it (leading-dot names such
as `.sb3`) does not start an extension. -/
def splitext (s : String) : String × String :=
  let cs := s.toList
  match lastDotPos cs with
  | none => (s, "")
  | some i =>
    if (cs.take i).all (fun c => c = '.') then (s, "")
    else (String.mk (cs.take i), String.mk (cs.drop i))

/-- Stem part of `os.path.splitext`. -/
def splitextStem (s : String) : String := (splitext s).1

/-- Extension part, as used for `Path.suffix` on bare file names. -/
def pathSuffix (s : String) : String := (splitext s).2

/-- Python `str.lower` on the ASCII names this program handles (character by
character, so the result is kernel-computable on concrete inputs). -/
def pyLower (s : String) : String := String.mk (s.toList.map Char.toLower)

/-- Python `str.endswith`. -/
def pyEndsWith (s suffix : String) : Bool :=
  List.isSuffixOf suffix.toList s.toList

/-- Scanner underlying `findDigitRun`: `cur` is the digit run currently
being read, in reverse order; a maximal run is adjudicated when it ends (at
a non-digit or at the end of the string). -/
def findRunGo (cur : List Char) : List Char → Option (List Char)
  | [] => if 3 ≤ cur.length then some cur.reverse else none
  | c :: rest =>
    if c.isDigit then findRunGo (c :: cur) rest
    else if 3 ≤ cur.length then some cur.reverse
    else findRunGo [] rest

/-- Leftmost match of the regular expression `\d·\x7b3,\x7d` (written here in
words: the first maximal run of decimal digits of length at least three), as
`re.search` finds it in `get_project_id_from_filename`. -/
def findDigitRun (cs : List Char) : Option (List Char) :=
  findRunGo [] cs

/-- Decimal value of a digit run, matching Python `int` on a digit string
(so `int of 000` is `0`). -/
def digitRunToNat (cs : List Char) : Nat :=
  cs.foldl (fun a c => 10 * a + (c.toNat - 48)) 0

/-- Source `get_project_id_from_filename` (present identically in
`console_analyzer_with_metadata.py` and `extract_scratch_meta.py`): take the
stem of the file name (the inputs in this model are bare names, so
`os.path.basename` is the identity) and return the integer value of the
first run of three or more digits, or `None`. -/
def get_project_id_from_filename (filename : String) : Option Nat :=
  (findDigitRun (splitextStem filename).toList).map digitRunToNat

/-- Source `DEFAULT_SKILL_POINTS` (same literal in `console_analyzer.py` and
`console_analyzer_with_metadata.py`), as an ordered association list since
Python dicts preserve insertion order. -/
def DEFAULT_SKILL_POINTS : List (String × Nat) :=
  [("Abstraction", 4), ("Parallelization", 4), ("Logic", 4),
   ("Synchronization", 4), ("FlowControl", 4), ("UserInteractivity", 4),
   ("DataRepresentation", 4), ("MathOperators", 4), ("MotionOperators", 4)]

/-- Value of `sum(DEFAULT_SKILL_POINTS.values())`. -/
def sumSkillPoints : Nat := (DEFAULT_SKILL_POINTS.map Prod.snd).sum

/-- The `mastery` dictionary consumed by `flatten_metrics` (the `extended`
result of the Mastery plugin, or the literal built by `get_empty_metrics`).
`total_blocks` is optional because `flatten_metrics` reads it with
`mastery.get` and a default; per-skill entries are an association list read
with membership tests. -/
structure MasteryDict where
  total_blocks : Option Nat
  total_points : Nat × Nat
  max_points : Nat
  average_points : Nat
  competence : String
  skills : List (String × (Nat × Nat))
deriving DecidableEq, Repr

/-- Result dictionary of the Mastery plugin: the `extended` entry plus the
optional `vanilla` entry (read with `mastery.get` and not consumed by
`flatten_metrics`). -/
structure MasteryOut where
  extended : MasteryDict
  vanilla : Option Row
deriving DecidableEq, Repr

/-- Result dictionary of the DuplicateScripts plugin as read by
`flatten_metrics` (optional because read with a `.get` default). -/
structure DupDict where
  total_duplicate_scripts : Option Nat
deriving DecidableEq, Repr

/-- Result dictionary of the DeadCode plugin as read by `flatten_metrics`. -/
structure DeadDict where
  total_dead_code_scripts : Option Nat
deriving DecidableEq, Repr

/-- Result dictionary of the Babia plugin as read by `flatten_metrics`
(`babia.get` with default 0, so the key is optional). -/
structure BabiaDict where
  num_sprites : Option Nat
deriving DecidableEq, Repr

/-- Dictionary produced by `_parse_naming`: the leading count, the offending
names, and the key under which the names are stored (the string `sprite` or
`backdrop`). -/
structure NamingDict where
  number : Int
  items : List String
  key : String
deriving DecidableEq, Repr

/-- The metrics dictionary assembled by `analyze_file_safe` and consumed by
`flatten_metrics`. -/
structure Metrics where
  mastery : MasteryDict
  mastery_vanilla : Row
  duplicateScript : DupDict
  deadCode : DeadDict
  babia : BabiaDict
  spriteNaming : NamingDict
  backdropNaming : NamingDict
deriving DecidableEq, Repr

/-- Source `get_empty_metrics` from `console_analyzer_with_metadata.py`:
the canonical structure for projects without blocks. -/
def get_empty_metrics : Metrics :=
  { mastery :=
      { total_blocks := some 0,
        total_points := (0, sumSkillPoints),
        max_points := sumSkillPoints,
        average_points := 0,
        competence := "Basic",
        skills := DEFAULT_SKILL_POINTS.map (fun sp => (sp.1, (0, sp.2))) },
    mastery_vanilla := [],
    duplicateScript := { total_duplicate_scripts := some 0 },
    deadCode := { total_dead_code_scripts := some 0 },
    babia := { num_sprites := some 0 },
    spriteNaming := { number := 0, items := [], key := "sprite" },
    backdropNaming := { number := 0, items := [], key := "backdrop" } }

/-- Python `int` applied to a string token (raises `ValueError` on anything
that is not an optionally signed decimal literal; the exotic accepted forms
such as underscores are not exercised by the sources). -/
def pyInt (s : String) : Except String Int :=
  match s.trim.toInt? with
  | some n => .ok n
  | none => .error "ValueError: invalid literal for int"

/-- Python substring test `needle in hay`. -/
def containsSub (hay needle : String) : Bool :=
  (hay.splitOn needle).length > 1

/-- Source `_parse_naming`: parse the textual output of the naming plugins.
`int` on a malformed leading token raises, which the embedding surfaces as
`Except.error`. -/
def parseNaming (result : String) : Except String NamingDict := do
  let lines := result.splitOn "\n"
  let number ←
    if lines.headD "" ≠ "" then pyInt (((lines.headD "").splitOn " ").headD "")
    else pure 0
  let items := if lines.length > 2 then (lines.drop 1).dropLast else []
  let key := if containsSub (pyLower result) "sprite" then "sprite" else "backdrop"
  return { number := number, items := items, key := key }

/-- Oracle recording what the external collaborators of one
`analyze_file_safe` call would return: `decode` is
`load_json_project` followed by `count_blocks_in_project` (the block count,
or the exception raised while opening the archive), and each plugin entry is
the value (or exception) of that plugin's `finalize` call. The naming
plugins return raw text that the source still has to parse. -/
structure AnalysisOracle where
  decode : Except String Nat
  mastery : Except String MasteryOut
  duplicate : Except String DupDict
  dead : Except String DeadDict
  babia : Except String BabiaDict
  spriteNamingOut : Except String String
  backdropNamingOut : Except String String
deriving Repr

/-- Source `analyze_file_safe` from `console_analyzer_with_metadata.py`:
returns the metrics and a has-blocks flag; a zero block count short-circuits
to `get_empty_metrics` (with the Babia result still attempted, its failure
swallowed); any exception escapes to the caller as `Except.error`. -/
def analyze_file_safe (o : AnalysisOracle) : Except String (Metrics × Bool) := do
  let block_count ← o.decode
  if block_count = 0 then
    let base := get_empty_metrics
    let metrics :=
      match o.babia with
      | .ok b => { base with babia := b }
      | .error _ => base
    return (metrics, false)
  else
    let mastery ← o.mastery
    let duplicate ← o.duplicate
    let dead ← o.dead
    let babia ← o.babia
    let spriteRaw ← o.spriteNamingOut
    let sprite ← parseNaming spriteRaw
    let backdropRaw ← o.backdropNamingOut
    let backdrop ← parseNaming backdropRaw
    return ({ mastery := mastery.extended,
              mastery_vanilla := mastery.vanilla.getD [],
              duplicateScript := duplicate,
              deadCode := dead,
              babia := babia,
              spriteNaming := sprite,
              backdropNaming := backdrop }, true)

/-- Source `flatten_metrics` from `console_analyzer_with_metadata.py` (the
variant that also emits `total_blocks` and reads every count with a `.get`
default): flatten the metrics dictionary into one ordered CSV row. -/
def flatten_metrics (project_name : String) (m : Metrics) : Row :=
  [("project", .vStr project_name),
   ("total_blocks", .vNat (m.mastery.total_blocks.getD 0)),
   ("mastery_total_points", .vNat m.mastery.total_points.1),
   ("mastery_total_max", .vNat m.mastery.total_points.2),
   ("mastery_competence", .vStr m.mastery.competence)]
  ++ DEFAULT_SKILL_POINTS.map (fun sp =>
      (sp.1, Val.vNat (match m.mastery.skills.lookup sp.1 with
                       | some v => v.1
                       | none => 0)))
  ++ [("duplicateScripts", .vNat (m.duplicateScript.total_duplicate_scripts.getD 0)),
      ("deadCode", .vNat (m.deadCode.total_dead_code_scripts.getD 0)),
      ("spriteNaming", .vInt m.spriteNaming.number),
      ("backdropNaming", .vInt m.backdropNaming.number),
      ("babia_num_sprites", .vNat (m.babia.num_sprites.getD 0))]

/-- Source `get_fieldnames` from `console_analyzer_with_metadata.py`: the
static schema of one run. -/
def get_fieldnames (include_metadata : Bool) : List String :=
  ["project", "total_blocks", "mastery_total_points", "mastery_total_max",
   "mastery_competence"]
  ++ DEFAULT_SKILL_POINTS.map Prod.fst
  ++ ["duplicateScripts", "deadCode", "spriteNaming", "backdropNaming",
      "babia_num_sprites", "has_blocks"]
  ++ (if include_metadata then
        ["project_id", "Project title", "Author", "Creation date",
         "Modified date", "Remix parent id", "Remix root id", "_meta_error"]
      else [])

/-- Source dataclass `ProcessingResult` (the `processing_time` field carries
wall-clock time and is not modelled). -/
structure ProcessingResult where
  filename : String
  success : Bool
  row : Option Row := none
  error : Option String := none
  has_blocks : Bool := true
deriving DecidableEq, Repr

/-- Oracle for one `_worker_analyze` call: `file` is `None` when
`os.path.exists` is false, otherwise the `os.path.getsize` result;
`analysis` records the collaborator outcomes of `analyze_file_safe`. -/
structure WorkerEnv where
  file : Option Nat
  analysis : AnalysisOracle
deriving Repr

/-- Source `_worker_analyze` from `console_analyzer_with_metadata.py`: the
per-item pipeline. Every failure mode, including the `MemoryError`,
`PermissionError` and generic `except` branches that format the exception
into a message, produces a failed `ProcessingResult`; nothing is raised past
this boundary. -/
def worker_analyze (fname : String) (env : WorkerEnv) : ProcessingResult :=
  match env.file with
  | none => { filename := fname, success := false, error := some "File not found" }
  | some file_size =>
    if file_size = 0 then
      { filename := fname, success := false, error := some "Empty file" }
    else if 100 * 1024 * 1024 < file_size then
      { filename := fname, success := false, error := some "File too large (>100MB)" }
    else if !(pyEndsWith (pyLower fname) ".sb3") then
      { filename := fname, success := false, error := some "Invalid file extension" }
    else
      match analyze_file_safe env.analysis with
      | .error e => { filename := fname, success := false, error := some e }
      | .ok (metrics, has_blocks) =>
        { filename := fname, success := true,
          row := some (flatten_metrics fname metrics),
          has_blocks := has_blocks }

/-- One outcome per submitted work item: the dispatcher hands every item to
`_worker_analyze` independently. -/
def processAll (items : List (String × WorkerEnv)) : List ProcessingResult :=
  items.map (fun it => worker_analyze it.1 it.2)

/-- The JSON object returned by a successful Scratch API request, reduced to
the fields the sources read: nested author, history and remix objects (each
possibly `None`), the top-level title, and — read only by
`extract_scratch_meta.py` — top-level `parent` and `root` keys. -/
structure AuthorJson where
  username : Option String
deriving DecidableEq, Repr

/-- History sub-object of the API response. -/
structure HistoryJson where
  created : Option String
  modified : Option String
deriving DecidableEq, Repr

/-- Remix sub-object of the API response. -/
structure RemixJson where
  parent : Option Int
  root : Option Int
deriving DecidableEq, Repr

/-- Top-level API response object. -/
structure ApiJson where
  author : Option AuthorJson
  history : Option HistoryJson
  remix : Option RemixJson
  title : Option String
  parent : Option Int
  root : Option Int
deriving DecidableEq, Repr

/-- Lift an optional string field of the response into a row value. -/
def optStrVal : Option String → Val
  | some s => .vStr s
  | none => .vNone

/-- Lift an optional integer field of the response into a row value. -/
def optIntVal : Option Int → Val
  | some n => .vInt n
  | none => .vNone

/-- The dictionary `fetch_project_metadata` in
`console_analyzer_with_metadata.py` returns on a 200 response, mirroring the
`(data.get(...) or ...)` accessor chains of the source. -/
def metaOkRow (project_id : Nat) (d : ApiJson) : Row :=
  [("project_id", .vNat project_id),
   ("Project title", optStrVal d.title),
   ("Author", optStrVal (d.author.getD { username := none }).username),
   ("Creation date", optStrVal (d.history.getD { created := none, modified := none }).created),
   ("Modified date", optStrVal (d.history.getD { created := none, modified := none }).modified),
   ("Remix parent id", optIntVal (d.remix.getD { parent := none, root := none }).parent),
   ("Remix root id", optIntVal (d.remix.getD { parent := none, root := none }).root),
   ("_meta_error", .vNone)]

/-- The all-null dictionary `fetch_project_metadata` in
`console_analyzer_with_metadata.py` returns when no attempt succeeded. -/
def metaNullRow (project_id : Nat) (err : String) : Row :=
  [("project_id", .vNat project_id),
   ("Project title", .vNone),
   ("Author", .vNone),
   ("Creation date", .vNone),
   ("Modified date", .vNone),
   ("Remix parent id", .vNone),
   ("Remix root id", .vNone),
   ("_meta_error", .vStr err)]

/-- Retry loop of `fetch_project_metadata` in
`console_analyzer_with_metadata.py`. The list holds the outcome each
successive HTTP attempt would have (`range(retries + 1)` attempts, so the
caller passes a list of length `retries + 1`); `last_err` accumulates the
last exception message exactly as the source's `last_err` variable does, and
running out of attempts produces the all-null dictionary with the error
marker. -/
def fetchGo (project_id : Nat) (last_err : Option String) :
    List (Except String ApiJson) → Row
  | [] => metaNullRow project_id (last_err.getD "Unknown error")
  | a :: rest =>
    match a with
    | .ok d => metaOkRow project_id d
    | .error e => fetchGo project_id (some e) rest

/-- Source `fetch_project_metadata` from `console_analyzer_with_metadata.py`:
if the `requests` module is missing, an all-null dictionary with a fixed
marker; otherwise the retry loop over the attempt outcomes. -/
def fetch_project_metadata (requestsAvailable : Bool) (project_id : Nat)
    (attempts : List (Except String ApiJson)) : Row :=
  if requestsAvailable then fetchGo project_id none attempts
  else metaNullRow project_id "requests module not available"

/-- The dictionary the `extract_scratch_meta.py` variant of
`fetch_project_metadata` returns on success: no `_meta_error` key, and the
remix ids read from the top-level `parent` and `root` keys of the response. -/
def metaOkRowEx (project_id : Nat) (d : ApiJson) : Row :=
  [("project_id", .vNat project_id),
   ("Project title", optStrVal d.title),
   ("Author", optStrVal (d.author.getD { username := none }).username),
   ("Creation date", optStrVal (d.history.getD { created := none, modified := none }).created),
   ("Modified date", optStrVal (d.history.getD { created := none, modified := none }).modified),
   ("Remix parent id", optIntVal d.parent),
   ("Remix root id", optIntVal d.root)]

/-- Retry loop of `fetch_project_metadata` in `extract_scratch_meta.py`: on
the last attempt the exception is re-raised (`else: raise`), so exhausting
the budget yields `Except.error`, not a dictionary. The empty-list case is
the source's unreachable `raise last_err` after the loop. -/
def fetchExGo (project_id : Nat) (last_err : Option String) :
    List (Except String ApiJson) → Except String Row
  | [] => .error (last_err.getD "unreachable")
  | a :: rest =>
    match a with
    | .ok d => .ok (metaOkRowEx project_id d)
    | .error e =>
      match rest with
      | [] => .error e
      | _ :: _ => fetchExGo project_id (some e) rest

/-- Source `fetch_project_metadata` from `extract_scratch_meta.py`
(`retries + 1` attempt outcomes in the list). -/
def fetch_project_metadata_ex (project_id : Nat)
    (attempts : List (Except String ApiJson)) : Except String Row :=
  fetchExGo project_id none attempts

/-- The initial row built by `worker` in `extract_scratch_meta.py` before
any fetch. -/
def workerExBaseRow (pid : Option Nat) (base : String) : Row :=
  [("project_id", match pid with | some p => .vNat p | none => .vNone),
   ("Project title", .vNone),
   ("Author", .vNone),
   ("Creation date", .vNone),
   ("Modified date", .vNone),
   ("Remix parent id", .vNone),
   ("Remix root id", .vNone),
   ("filename", .vStr base),
   ("_error", .vNone)]

/-- Source `worker` from `extract_scratch_meta.py`: its `if pid is None`
test is a plain `None` check, and any exception out of the fetch (including
retry exhaustion) is converted into the `_error` marker of the row. Paths in
this model are bare file names, so `os.path.basename` is the identity. -/
def worker_ex (path : String) (attempts : List (Except String ApiJson)) : Row :=
  let pid := get_project_id_from_filename path
  let row := workerExBaseRow pid path
  match pid with
  | none => setItem row "_error" (.vStr "No numeric project_id in filename")
  | some p =>
    match fetch_project_metadata_ex p attempts with
    | .ok meta => dictUpdate row meta
    | .error e => setItem row "_error" (.vStr e)

/-- The eight assignments of `None` metadata fields plus the explanatory
marker performed by `analyze_directory_with_metadata` when no project id can
be derived from the file name. -/
def nullMetaAssign (row : Row) : Row :=
  setItem (setItem (setItem (setItem (setItem (setItem (setItem (setItem row
    "project_id" .vNone)
    "Project title" .vNone)
    "Author" .vNone)
    "Creation date" .vNone)
    "Modified date" .vNone)
    "Remix parent id" .vNone)
    "Remix root id" .vNone)
    "_meta_error" (.vStr "No project ID in filename")

/-- The row `analyze_directory_with_metadata` builds for one successful
outcome: copy the worker's row, set `has_blocks`, and, when metadata is
enabled, either merge the fetched dictionary (the source's `if pid:` is
Python truthiness, so the id must be present *and nonzero*) or assign the
null fields with the marker. `attempts` maps a project id to the outcomes
its HTTP attempts would have. -/
def buildSuccessRow (fetch_metadata requestsAvailable : Bool)
    (attempts : Nat → List (Except String ApiJson))
    (fname : String) (row0 : Row) (has_blocks : Bool) : Row :=
  let row := setItem row0 "has_blocks" (.vBool has_blocks)
  if fetch_metadata then
    match get_project_id_from_filename fname with
    | some pid =>
      if pid ≠ 0 then
        dictUpdate row (fetch_project_metadata requestsAvailable pid (attempts pid))
      else nullMetaAssign row
    | none => nullMetaAssign row
  else row

/-- What the orchestrator loop of `analyze_directory_with_metadata` does
with one arriving outcome: a successful result has its row completed and
written (and is then marked done and counted successful); a failed result is
only counted and logged. -/
inductive OutcomeAction where
  | wrote (row : Row)
  | failedRecorded (err : String)
deriving DecidableEq, Repr

/-- Per-outcome handling of `analyze_directory_with_metadata`. -/
def handleOutcome (fetch_metadata requestsAvailable : Bool)
    (attempts : Nat → List (Except String ApiJson))
    (r : ProcessingResult) : OutcomeAction :=
  if r.success then
    .wrote (buildSuccessRow fetch_metadata requestsAvailable attempts
      r.filename (r.row.getD []) r.has_blocks)
  else .failedRecorded (r.error.getD "")

/-- Semantics of `csv.DictWriter.writerow` with the default
`extrasaction` (`raise`) and default `restval` (`None`): a row holding a key
outside the field names raises `ValueError`; otherwise one cell per field
name is emitted, in field-name order, with missing keys filled by the rest
value. -/
def dictWriterWriteRow (fieldnames : List String) (row : Row) :
    Except String (List Val) :=
  if row.all (fun p => fieldnames.contains p.1) then
    .ok (fieldnames.map (fun f => (row.lookup f).getD .vNone))
  else .error "ValueError: dict contains fields not in fieldnames"

/-- Contents of the progress file as seen through `json.load`: the file may
be absent, hold text that is not JSON, or hold a parsed JSON value (an array
of strings in the intended format; the other value shapes matter because
Python `set` behaves differently on each). -/
inductive JContent where
  | absent
  | malformed
  | jarr (xs : List String)
  | jobj (keys : List String)
  | jstr (s : String)
  | jnum (n : Int)
  | jbool (b : Bool)
  | jnull
deriving DecidableEq, Repr

/-- Source `load_progress` from `console_analyzer.py`: an absent file or a
`json.JSONDecodeError` yields the empty set; otherwise `set(json.load(fh))`,
which iterates arrays (elements), objects (keys) and strings (characters)
and raises `TypeError` on non-iterable values — only `JSONDecodeError` is
caught there. -/
def load_progress : JContent → Except String (Finset String)
  | .absent => .ok ∅
  | .malformed => .ok ∅
  | .jarr xs => .ok xs.toFinset
  | .jobj ks => .ok ks.toFinset
  | .jstr s => .ok (s.toList.map Char.toString).toFinset
  | .jnum _ => .error "TypeError: int object is not iterable"
  | .jbool _ => .error "TypeError: bool object is not iterable"
  | .jnull => .error "TypeError: NoneType object is not iterable"

/-- Source `ProgressManager._load_progress` from
`console_analyzer_with_metadata.py`: same body, but the except clause
catches every exception, so every failure collapses to the empty set. -/
def loadProgressMeta (c : JContent) : Finset String :=
  match load_progress c with
  | .ok s => s
  | .error _ => ∅

/-- State of a `ProgressManager` instance. `durable` is the set of names the
progress file on disk holds (the file stores them as a sorted JSON array;
only the set matters here). -/
structure PMState where
  processed : Finset String
  counter : Nat
  total_processed : Nat
  durable : Finset String
  save_interval : Nat
deriving DecidableEq

/-- Source `ProgressManager.save`: rewrite the file from the in-memory set
and reset the pending-save counter. -/
def PMState.save (s : PMState) : PMState :=
  { s with durable := s.processed, counter := 0 }

/-- Source `ProgressManager.add`: insert a new name, bump the counters, and
save once the counter reaches the save interval; a name already present
changes nothing. -/
def PMState.add (s : PMState) (filename : String) : PMState :=
  if filename ∈ s.processed then s
  else
    let s2 := { s with processed := insert filename s.processed,
                       counter := s.counter + 1,
                       total_processed := s.total_processed + 1 }
    if s2.save_interval ≤ s2.counter then s2.save else s2

/-- Source `ProgressManager.__init__`: with `ignore_progress` the in-memory
set starts empty regardless of the file; the file itself is untouched at
construction time. -/
def progressManagerInit (content : JContent) (save_interval : Nat)
    (ignore_progress : Bool) : PMState :=
  let processed := if ignore_progress then (∅ : Finset String) else loadProgressMeta content
  { processed := processed, counter := 0, total_processed := processed.card,
    durable := loadProgressMeta content, save_interval := save_interval }

/-- One directory entry as `Path.iterdir` yields it. -/
structure DirEntry where
  name : String
  isFile : Bool
deriving DecidableEq, Repr

/-- Insert into a lexicographically sorted list (model of Python
`sorted` on strings). -/
def insertSorted (x : String) : List String → List String
  | [] => [x]
  | y :: ys => if x ≤ y then x :: y :: ys else y :: insertSorted x ys

/-- Model of Python `sorted` on a list of strings. -/
def sortStrings (l : List String) : List String :=
  l.foldr insertSorted []

/-- Source `get_sb3_files` from `console_analyzer_with_metadata.py`: files
whose suffix lower-cases to `.sb3`, minus the names the `ProgressManager`
already holds, sorted. -/
def get_sb3_files (entries : List DirEntry) (processed : Finset String) :
    List String :=
  let all_files := entries.filter
    (fun e => e.isFile && (pyLower (pathSuffix e.name) == ".sb3"))
  let files := (all_files.filter (fun e => decide (e.name ∉ processed))).map
    (fun e => e.name)
  sortStrings files

/-- The file names `analyze_directory` in `console_analyzer.py` actually
analyzes: the sorted `.sb3` listing (case-sensitive `endswith` there), with
the loop skipping names already in the progress set. -/
def consolePending (names : List String) (processed : Finset String) :
    List String :=
  (sortStrings (names.filter (fun f => pyEndsWith f ".sb3"))).filter
    (fun f => decide (f ∉ processed))

/-- The pending list of `analyze_directory_multiprocess` in
`console_analyzer_multiprocess.py`. -/
def mpPending (names : List String) (processed : Finset String) :
    List String :=
  (sortStrings names).filter
    (fun f => pyEndsWith f ".sb3" && decide (f ∉ processed))

/-- Source line 555 of `console_analyzer_with_metadata.py`: whether the CSV
is treated as an existing file to append to. -/
def csv_exists_flag (fileExists : Bool) (size : Nat) (ignore_progress : Bool) :
    Bool :=
  fileExists && decide (0 < size) && !ignore_progress

/-- Source line 572: open mode of the CSV file. -/
def file_mode (ignore_progress : Bool) : String :=
  if ignore_progress then "w" else "a"

/-- Source line 575: whether a fresh header row is written. -/
def write_header_flag (csv_exists ignore_progress : Bool) : Bool :=
  !csv_exists || ignore_progress

/-- Durability-relevant state of one run of the orchestrator loop: the
buffered and flushed-to-disk parts of the CSV stream (rows identified by
their file name) together with the `ProgressManager` state. -/
structure RunState where
  pm : PMState
  csvBuf : List String
  csvDur : List String
deriving DecidableEq

/-- The three observable steps the success branch of the orchestrator loop
performs for one outcome, in source order: `writer.writerow(row)` (buffered),
`progress_manager.add(result.filename)` (which may itself durably save the
progress file), and `csvfile.flush()`. -/
inductive WriteStep where
  | writeRow (id : String)
  | markDone (id : String)
  | flushCSV
deriving DecidableEq, Repr

/-- Effect of one step on the run state. -/
def execStep (s : RunState) : WriteStep → RunState
  | .writeRow id => { s with csvBuf := s.csvBuf ++ [id] }
  | .markDone id => { s with pm := s.pm.add id }
  | .flushCSV => { s with csvDur := s.csvDur ++ s.csvBuf, csvBuf := [] }

/-- Execute a list of steps. A crash corresponds to stopping after a prefix
of the step list; the durable state is then `csvDur` and `pm.durable`. -/
def runStepList (s : RunState) : List WriteStep → RunState
  | [] => s
  | st :: rest => runStepList (execStep s st) rest

/-- Steps emitted for one successful item, in the order of source lines
619, 620 and 633 of `console_analyzer_with_metadata.py`. -/
def itemSteps (id : String) : List WriteStep :=
  [.writeRow id, .markDone id, .flushCSV]

/-- Steps of a run whose successful outcomes arrive in the given order. -/
def successTrace : List String → List WriteStep
  | [] => []
  | id :: rest => itemSteps id ++ successTrace rest

/-- Run state at the start of a fresh run (no prior progress file, empty
CSV); the orchestrator constructs the `ProgressManager` with the default
save interval of 10. -/
def initialRunState (save_interval : Nat) : RunState :=
  { pm := progressManagerInit .absent save_interval false,
    csvBuf := [], csvDur := [] }

/-- Membership is preserved by sorted insertion. -/
theorem mem_insertSorted {x a : String} {l : List String} :
    x ∈ insertSorted a l ↔ x = a ∨ x ∈ l := by
  induction l with
  | nil => simp [insertSorted]
  | cons y ys ih =>
    by_cases h : a ≤ y
    · simp [insertSorted, h]
    · simp [insertSorted, h, ih]
      tauto

/-- Membership is preserved by `sortStrings`. -/
theorem mem_sortStrings {x : String} {l : List String} :
    x ∈ sortStrings l ↔ x ∈ l := by
  induction l with
  | nil => simp [sortStrings]
  | cons y ys ih =>
    simp only [sortStrings, List.foldr] at ih ⊢
    rw [mem_insertSorted, ih, List.mem_cons]

/-- Looking up a key that was just set finds the new value: auxiliary case
where the key was already present. -/
theorem lookup_map_set (k : String) (v : Val) :
    ∀ r : Row, (r.lookup k).isSome →
      (r.map (fun p => if p.1 = k then (k, v) else p)).lookup k = some v := by
  intro r
  induction r with
  | nil => simp [List.lookup]
  | cons p rest ih =>
    obtain ⟨pk, pv⟩ := p
    intro hsome
    by_cases h : pk = k
    · subst h
      rw [List.map_cons, if_pos (show Prod.fst (pk, pv) = pk from rfl)]
      simp [List.lookup]
    · have hne : (k == pk) = false := beq_eq_false_iff_ne.mpr (fun hk => h hk.symm)
      have hif : ((pk, pv).1 = k) = False := by simp [h]
      rw [List.map_cons, if_neg (by simpa using h)]
      simp only [List.lookup, hne] at hsome ⊢
      exact ih hsome

/-- Looking up a key in an appended list skips a front part that lacks it. -/
theorem lookup_append_of_none (k : String) :
    ∀ r l : Row, r.lookup k = none → (r ++ l).lookup k = l.lookup k := by
  intro r
  induction r with
  | nil => simp
  | cons p rest ih =>
    obtain ⟨pk, pv⟩ := p
    intro l hnone
    by_cases h : (k == pk) = true
    · simp [List.lookup, h] at hnone
    · have h2 : (k == pk) = false := by
        cases hb : (k == pk) <;> simp [hb] at h ⊢
      simp only [List.cons_append, List.lookup, h2] at hnone ⊢
      exact ih l hnone

/-- Python dict setitem followed by lookup of the same key yields the value
just written. -/
theorem lookup_setItem (r : Row) (k : String) (v : Val) :
    (setItem r k v).lookup k = some v := by
  unfold setItem
  by_cases h : (r.lookup k).isSome
  · rw [if_pos h]
    exact lookup_map_set k v r h
  · rw [if_neg h]
    have hnone : r.lookup k = none := by
      cases hl : r.lookup k
      · rfl
      · simp [hl] at h
    rw [lookup_append_of_none k r _ hnone]
    simp [List.lookup]

/-- The updated-in-place part of `dictUpdate` keeps the key sequence. -/
theorem map_fst_dictUpdate_map (r upd : Row) :
    ((r.map fun p =>
      match upd.lookup p.1 with
      | some v => (p.1, v)
      | none => p).map Prod.fst) = r.map Prod.fst := by
  induction r with
  | nil => rfl
  | cons p rest ih =>
    cases h : upd.lookup p.1 <;> simp [h, ih]

/-- When no key of the update argument occurs in the receiver, `dictUpdate`
appends the update's keys, in order, after the receiver's keys. -/
theorem dictUpdate_keys (r u : Row)
    (h : ∀ q ∈ u, r.lookup q.1 = none) :
    (dictUpdate r u).map Prod.fst = r.map Prod.fst ++ u.map Prod.fst := by
  unfold dictUpdate
  rw [List.map_append, map_fst_dictUpdate_map]
  congr 1
  have hfilter : u.filter (fun q => (r.lookup q.1).isNone) = u := by
    rw [List.filter_eq_self]
    intro a ha
    simp [h a ha]
  rw [hfilter]

/-- C7: for every progress-file path, `load` returns the empty set when the
file is absent or its contents are not valid JSON, rather than raising or
aborting the run; when the file holds a valid JSON array of identifier
strings it returns exactly that set. Verified for `load_progress` of
`console_analyzer.py` and `ProgressManager._load_progress` of
`console_analyzer_with_metadata.py`. -/
theorem C7_load_progress_robust :
    (load_progress .absent = .ok (∅ : Finset String)) ∧
    (load_progress .malformed = .ok (∅ : Finset String)) ∧
    (∀ xs : List String, load_progress (.jarr xs) = .ok xs.toFinset) ∧
    (loadProgressMeta .absent = (∅ : Finset String)) ∧
    (loadProgressMeta .malformed = (∅ : Finset String)) ∧
    (∀ xs : List String, loadProgressMeta (.jarr xs) = xs.toFinset) :=
  ⟨rfl, rfl, fun _ => rfl, rfl, rfl, fun _ => rfl⟩

/-- The counting invariant of `ProgressManager`: the running total equals
the size of the in-memory set. -/
def pmInv (s : PMState) : Prop := s.total_processed = s.processed.card

/-- C10: `ProgressManager` maintains `total_processed` equal to the size of
`processed` after construction and after every `add` and `save`, and `add`
of an already-present file name changes nothing (set, total and pending-save
counter included). -/
theorem C10_progress_manager_invariant :
    (∀ (content : JContent) (save_interval : Nat) (ignore_progress : Bool),
        pmInv (progressManagerInit content save_interval ignore_progress)) ∧
    (∀ (s : PMState) (f : String), pmInv s → pmInv (s.add f)) ∧
    (∀ s : PMState, pmInv s → pmInv s.save) ∧
    (∀ (s : PMState) (f : String), f ∈ s.processed → s.add f = s) := by
  refine ⟨?_, ?_, ?_, ?_⟩
  · intro content save_interval ignore_progress
    rfl
  · intro s f hinv
    unfold PMState.add
    by_cases hmem : f ∈ s.processed
    · simpa [hmem] using hinv
    · have hcard : (insert f s.processed).card = s.processed.card + 1 :=
        Finset.card_insert_of_not_mem hmem
      by_cases hsave : s.save_interval ≤ s.counter + 1 <;>
        simp [hmem, hsave, PMState.save, pmInv, hcard] <;> exact hinv
  · intro s hinv
    simpa [PMState.save, pmInv] using hinv
  · intro s f hmem
    simp [PMState.add, hmem]

/-- Witness that the hypotheses of the C10 theorem are satisfiable at a
concrete state. -/
theorem C10_progress_manager_invariant_witness :
    pmInv ((progressManagerInit .absent 10 false).add "a.sb3") ∧
    ((progressManagerInit .absent 10 false).add "a.sb3").add "a.sb3" =
      (progressManagerInit .absent 10 false).add "a.sb3" := by
  constructor
  · exact C10_progress_manager_invariant.2.1 _ "a.sb3"
      (C10_progress_manager_invariant.1 .absent 10 false)
  · exact C10_progress_manager_invariant.2.2.2 _ "a.sb3" (by decide)

/-- C5: an identifier present in the loaded Progress Store at the start of a
run is excluded from the pending work set and never submitted. Verified for
the pending lists of all three entry points: `get_sb3_files` of
`console_analyzer_with_metadata.py`, the loop filter of `analyze_directory`
in `console_analyzer.py`, and the list comprehension of
`analyze_directory_multiprocess` in `console_analyzer_multiprocess.py`. -/
theorem C5_skip_already_done (entries : List DirEntry)
    (names1 names2 : List String) (processed : Finset String) (f : String)
    (hf : f ∈ processed) :
    f ∉ get_sb3_files entries processed ∧
    f ∉ consolePending names1 processed ∧
    f ∉ mpPending names2 processed := by
  refine ⟨?_, ?_, ?_⟩
  · intro hmem
    unfold get_sb3_files at hmem
    rw [mem_sortStrings] at hmem
    rcases List.mem_map.mp hmem with ⟨e, hefilter, hename⟩
    rcases List.mem_filter.mp hefilter with ⟨-, hdec⟩
    rw [hename] at hdec
    exact (of_decide_eq_true hdec) hf
  · intro hmem
    unfold consolePending at hmem
    rcases List.mem_filter.mp hmem with ⟨-, hdec⟩
    exact (of_decide_eq_true hdec) hf
  · intro hmem
    unfold mpPending at hmem
    rcases List.mem_filter.mp hmem with ⟨-, hdec⟩
    rw [Bool.and_eq_true] at hdec
    rcases hdec with ⟨-, hdec2⟩
    exact (of_decide_eq_true hdec2) hf

/-- Witness for C5: a concrete already-processed name is absent from all
three pending lists. -/
theorem C5_skip_already_done_witness :
    "100.sb3" ∉ get_sb3_files
        [{ name := "100.sb3", isFile := true }, { name := "200.sb3", isFile := true }]
        (insert "100.sb3" ∅) ∧
    "100.sb3" ∉ consolePending ["100.sb3", "200.sb3"] (insert "100.sb3" ∅) ∧
    "100.sb3" ∉ mpPending ["100.sb3", "200.sb3"] (insert "100.sb3" ∅) :=
  C5_skip_already_done _ _ _ _ "100.sb3" (Finset.mem_insert_self _ _)

/-- C8: with reprocess mode requested (`ignore_progress` true), the Progress
Store is treated as empty regardless of the durable file's content, no file
is skipped as already done, the CSV is not treated as an existing file, it
is opened in create/overwrite mode, and a fresh header is written. -/
theorem C8_reprocess_mode (content : JContent) (save_interval : Nat)
    (entries : List DirEntry) (fileExists : Bool) (size : Nat) :
    (progressManagerInit content save_interval true).processed = ∅ ∧
    csv_exists_flag fileExists size true = false ∧
    file_mode true = "w" ∧
    write_header_flag (csv_exists_flag fileExists size true) true = true ∧
    (∀ e ∈ entries, e.isFile = true → pyLower (pathSuffix e.name) = ".sb3" →
      e.name ∈ get_sb3_files entries
        (progressManagerInit content save_interval true).processed) := by
  refine ⟨rfl, by simp [csv_exists_flag], rfl, by simp [write_header_flag], ?_⟩
  intro e he hfile hsuffix
  unfold get_sb3_files
  rw [mem_sortStrings]
  refine List.mem_map.mpr ⟨e, List.mem_filter.mpr ⟨List.mem_filter.mpr ⟨he, ?_⟩, ?_⟩, rfl⟩
  · simp [hfile, hsuffix]
  · simp [progressManagerInit]

/-- Witness for C8: a concrete directory entry is enumerated in reprocess
mode even though the progress file lists it as done. -/
theorem C8_reprocess_mode_witness :
    (progressManagerInit (.jarr ["100.sb3"]) 10 true).processed = ∅ ∧
    "100.sb3" ∈ get_sb3_files [{ name := "100.sb3", isFile := true }]
      (progressManagerInit (.jarr ["100.sb3"]) 10 true).processed := by
  constructor
  · exact (C8_reprocess_mode (.jarr ["100.sb3"]) 10 [] false 0).1
  · exact (C8_reprocess_mode (.jarr ["100.sb3"]) 10
      [{ name := "100.sb3", isFile := true }] false 0).2.2.2.2
      { name := "100.sb3", isFile := true } (by decide) rfl (by decide)

/-- Safety relation between the progress store and the CSV stream: every
identifier marked done in memory has had its row at least written to the
stream (buffered or flushed), and every durably marked identifier is marked
in memory. -/
def RowSafe (s : RunState) : Prop :=
  (∀ id ∈ s.pm.processed, id ∈ s.csvBuf ∨ id ∈ s.csvDur) ∧
  s.pm.durable ⊆ s.pm.processed

/-- Writing a row preserves the safety relation. -/
theorem rowSafe_writeRow {s : RunState} (hs : RowSafe s) (id : String) :
    RowSafe (execStep s (.writeRow id)) := by
  obtain ⟨h1, h2⟩ := hs
  refine ⟨?_, h2⟩
  intro x hx
  rcases h1 x hx with hb | hd
  · exact Or.inl (List.mem_append.mpr (Or.inl hb))
  · exact Or.inr hd

/-- Marking an identifier done preserves the safety relation provided its
row is already in the stream. -/
theorem rowSafe_markDone {s : RunState} (hs : RowSafe s) (id : String)
    (hid : id ∈ s.csvBuf ∨ id ∈ s.csvDur) :
    RowSafe (execStep s (.markDone id)) := by
  obtain ⟨h1, h2⟩ := hs
  show RowSafe { s with pm := s.pm.add id }
  unfold PMState.add
  by_cases hmem : id ∈ s.pm.processed
  · simpa [hmem] using ⟨h1, h2⟩
  · by_cases hsave : s.pm.save_interval ≤ s.pm.counter + 1
    · simp only [hmem, if_false, hsave, if_true, PMState.save]
      refine ⟨?_, fun x hx => hx⟩
      intro x hx
      rcases Finset.mem_insert.mp hx with hxe | hxs
      · subst hxe; exact hid
      · exact h1 x hxs
    · simp only [hmem, if_false, hsave]
      refine ⟨?_, ?_⟩
      · intro x hx
        rcases Finset.mem_insert.mp hx with hxe | hxs
        · subst hxe; exact hid
        · exact h1 x hxs
      · exact fun x hx => Finset.mem_insert_of_mem (h2 hx)

/-- Flushing the CSV stream preserves the safety relation. -/
theorem rowSafe_flush {s : RunState} (hs : RowSafe s) :
    RowSafe (execStep s .flushCSV) := by
  obtain ⟨h1, h2⟩ := hs
  refine ⟨?_, h2⟩
  intro x hx
  rcases h1 x hx with hb | hd
  · exact Or.inr (List.mem_append.mpr (Or.inr hb))
  · exact Or.inr (List.mem_append.mpr (Or.inl hd))

/-- The safety relation holds at every prefix (crash point) of the step
trace of a run of successful outcomes. -/
theorem rowSafe_trace (items : List String) :
    ∀ s : RunState, RowSafe s →
      ∀ n : Nat, RowSafe (runStepList s ((successTrace items).take n)) := by
  induction items with
  | nil =>
    intro s hs n
    simpa [successTrace, runStepList, List.take] using hs
  | cons id rest ih =>
    intro s hs n
    have hw : RowSafe (execStep s (.writeRow id)) := rowSafe_writeRow hs id
    have hbuf : id ∈ (execStep s (.writeRow id)).csvBuf := by
      simp [execStep]
    have hm : RowSafe (execStep (execStep s (.writeRow id)) (.markDone id)) :=
      rowSafe_markDone hw id (Or.inl hbuf)
    have hf : RowSafe (execStep (execStep (execStep s (.writeRow id))
        (.markDone id)) .flushCSV) := rowSafe_flush hm
    match n with
    | 0 => simpa [runStepList, List.take] using hs
    | 1 =>
      simpa [successTrace, itemSteps, runStepList, List.take] using hw
    | 2 =>
      simpa [successTrace, itemSteps, runStepList, List.take] using hm
    | (k + 3) =>
      have : (successTrace (id :: rest)).take (k + 3) =
          WriteStep.writeRow id :: WriteStep.markDone id :: WriteStep.flushCSV
            :: (successTrace rest).take k := by
        simp [successTrace, itemSteps, List.take]
      rw [this]
      simpa [runStepList] using ih _ hf k

/-- C1 (amended): for every run from a clean initial state and every crash
point, each identifier marked done in the in-memory Progress Store — and
hence each durably marked one — has had its row written to the CSV stream
(source order is writerow, then add, then flush). The claim as stated is
refuted by `C1_counterexample`: the CSV flush happens only after the mark,
so the durable mark can precede the durable row. -/
theorem C1_row_written_before_mark (save_interval : Nat)
    (items : List String) (n : Nat) :
    RowSafe (runStepList (initialRunState save_interval)
      ((successTrace items).take n)) := by
  apply rowSafe_trace
  constructor
  · intro id hid
    simp [initialRunState, progressManagerInit, loadProgressMeta,
      load_progress] at hid
  · intro id hid
    simp [initialRunState, progressManagerInit, loadProgressMeta,
      load_progress] at hid

/-- Witness for C1: at a concrete crash point of a concrete run, the marked
identifier's row is in the stream and the durable set is contained in the
marked set. -/
theorem C1_row_written_before_mark_witness :
    let s := runStepList (initialRunState 10) ((successTrace ["a.sb3"]).take 2)
    ("a.sb3" ∈ s.csvBuf ∨ "a.sb3" ∈ s.csvDur) ∧
      s.pm.durable ⊆ s.pm.processed := by
  refine ⟨?_, ?_⟩
  · exact (C1_row_written_before_mark 10 ["a.sb3"] 2).1 "a.sb3" (by decide)
  · exact (C1_row_written_before_mark 10 ["a.sb3"] 2).2

/-- Counterexample to C1 as stated: with the source's default save interval
of 10, running ten successful items and crashing just before the tenth CSV
flush (prefix of 29 of the 30 steps) leaves the tenth identifier durably
marked done in the progress file while its row was never durably written —
the progress save fired inside `add`, before `csvfile.flush()`. -/
theorem C1_counterexample :
    let s := runStepList (initialRunState 10) ((successTrace
      ["0.sb3", "1.sb3", "2.sb3", "3.sb3", "4.sb3", "5.sb3", "6.sb3",
       "7.sb3", "8.sb3", "9.sb3"]).take 29)
    "9.sb3" ∈ s.pm.durable ∧ "9.sb3" ∉ s.csvDur := by
  refine ⟨by decide, by decide⟩

/-- C4: the Per-Item Pipeline `_worker_analyze` never raises past its
boundary. In the source's check order: a missing file yields the not-found
failure, a zero-byte file the empty failure, an over-100MB file the
too-large failure, a wrongly named file the bad-extension failure, and any
exception out of decoding or the MetricEngine is converted into a failure
outcome carrying its message; every non-success carries an error message,
and the dispatcher map gives every item exactly one outcome, so one bad item
never stops subsequent items. -/
theorem C4_worker_failure_isolation :
    (∀ (fname : String) (env : WorkerEnv), env.file = none →
      worker_analyze fname env =
        { filename := fname, success := false, error := some "File not found" }) ∧
    (∀ (fname : String) (env : WorkerEnv), env.file = some 0 →
      worker_analyze fname env =
        { filename := fname, success := false, error := some "Empty file" }) ∧
    (∀ (fname : String) (env : WorkerEnv) (sz : Nat), env.file = some sz →
      100 * 1024 * 1024 < sz →
      worker_analyze fname env =
        { filename := fname, success := false,
          error := some "File too large (>100MB)" }) ∧
    (∀ (fname : String) (env : WorkerEnv) (sz : Nat), env.file = some sz →
      sz ≠ 0 → ¬ 100 * 1024 * 1024 < sz →
      pyEndsWith (pyLower fname) ".sb3" = false →
      worker_analyze fname env =
        { filename := fname, success := false,
          error := some "Invalid file extension" }) ∧
    (∀ (fname : String) (env : WorkerEnv) (sz : Nat) (e : String),
      env.file = some sz → sz ≠ 0 → ¬ 100 * 1024 * 1024 < sz →
      pyEndsWith (pyLower fname) ".sb3" = true →
      analyze_file_safe env.analysis = .error e →
      worker_analyze fname env =
        { filename := fname, success := false, error := some e }) ∧
    (∀ (fname : String) (env : WorkerEnv),
      (worker_analyze fname env).success = false →
      (worker_analyze fname env).error.isSome = true) ∧
    (∀ (xs : List (String × WorkerEnv)) (y : String × WorkerEnv)
       (zs : List (String × WorkerEnv)),
      processAll (xs ++ y :: zs) =
        processAll xs ++ worker_analyze y.1 y.2 :: processAll zs) ∧
    (∀ items : List (String × WorkerEnv),
      (processAll items).length = items.length) := by
  refine ⟨?_, ?_, ?_, ?_, ?_, ?_, ?_, ?_⟩
  · intro fname env h
    simp [worker_analyze, h]
  · intro fname env h
    simp [worker_analyze, h]
  · intro fname env sz h hbig
    have hnz : sz ≠ 0 := by omega
    simp [worker_analyze, h, hnz, hbig]
  · intro fname env sz h hnz hbig hext
    simp [worker_analyze, h, hnz, hbig, hext]
  · intro fname env sz e h hnz hbig hext herr
    simp [worker_analyze, h, hnz, hbig, hext, herr]
  · intro fname env
    unfold worker_analyze
    cases henv : env.file with
    | none => simp
    | some sz =>
      by_cases h0 : sz = 0
      · simp [h0]
      · by_cases hbig : 100 * 1024 * 1024 < sz
        · simp [h0, hbig]
        · by_cases hext : pyEndsWith (pyLower fname) ".sb3"
          · cases hres : analyze_file_safe env.analysis with
            | error e => simp [h0, hbig, hext, hres]
            | ok pr =>
              obtain ⟨metrics, hasb⟩ := pr
              simp [h0, hbig, hext, hres]
          · simp [h0, hbig, hext]
  · intro xs y zs
    simp [processAll]
  · intro items
    simp [processAll]

/-- Witness for C4: each failure mode at a concrete input, plus isolation of
a failing item between two others. -/
theorem C4_worker_failure_isolation_witness :
    (worker_analyze "a.sb3" { file := none, analysis :=
        { decode := .error "x", mastery := .error "x", duplicate := .error "x",
          dead := .error "x", babia := .error "x", spriteNamingOut := .error "x",
          backdropNamingOut := .error "x" } } =
      { filename := "a.sb3", success := false, error := some "File not found" }) ∧
    (worker_analyze "a.sb3" { file := some 0, analysis :=
        { decode := .error "x", mastery := .error "x", duplicate := .error "x",
          dead := .error "x", babia := .error "x", spriteNamingOut := .error "x",
          backdropNamingOut := .error "x" } } =
      { filename := "a.sb3", success := false, error := some "Empty file" }) ∧
    (worker_analyze "a.sb3" { file := some 104857601, analysis :=
        { decode := .error "x", mastery := .error "x", duplicate := .error "x",
          dead := .error "x", babia := .error "x", spriteNamingOut := .error "x",
          backdropNamingOut := .error "x" } } =
      { filename := "a.sb3", success := false,
        error := some "File too large (>100MB)" }) ∧
    (worker_analyze "a.txt" { file := some 10, analysis :=
        { decode := .error "x", mastery := .error "x", duplicate := .error "x",
          dead := .error "x", babia := .error "x", spriteNamingOut := .error "x",
          backdropNamingOut := .error "x" } } =
      { filename := "a.txt", success := false,
        error := some "Invalid file extension" }) ∧
    (worker_analyze "a.sb3" { file := some 10, analysis :=
        { decode := .error "BadZipFile", mastery := .error "x",
          duplicate := .error "x", dead := .error "x", babia := .error "x",
          spriteNamingOut := .error "x", backdropNamingOut := .error "x" } } =
      { filename := "a.sb3", success := false, error := some "BadZipFile" }) ∧
    (processAll [("a.sb3", { file := some 10, analysis :=
        { decode := .ok 0, mastery := .error "x", duplicate := .error "x",
          dead := .error "x", babia := .error "x", spriteNamingOut := .error "x",
          backdropNamingOut := .error "x" } }),
      ("b.sb3", { file := some 0, analysis :=
        { decode := .error "x", mastery := .error "x", duplicate := .error "x",
          dead := .error "x", babia := .error "x", spriteNamingOut := .error "x",
          backdropNamingOut := .error "x" } }),
      ("c.sb3", { file := some 10, analysis :=
        { decode := .ok 0, mastery := .error "x", duplicate := .error "x",
          dead := .error "x", babia := .error "x", spriteNamingOut := .error "x",
          backdropNamingOut := .error "x" } })]).length = 3 := by
  refine ⟨?_, ?_, ?_, ?_, ?_, ?_⟩
  · exact C4_worker_failure_isolation.1 "a.sb3" _ rfl
  · exact C4_worker_failure_isolation.2.1 "a.sb3" _ rfl
  · exact C4_worker_failure_isolation.2.2.1 "a.sb3" _ 104857601 rfl (by decide)
  · exact C4_worker_failure_isolation.2.2.2.1 "a.txt" _ 10 rfl (by decide)
      (by decide) (by decide)
  · exact C4_worker_failure_isolation.2.2.2.2.1 "a.sb3" _ 10 "BadZipFile" rfl
      (by decide) (by decide) (by decide) rfl
  · exact C4_worker_failure_isolation.2.2.2.2.2.2.2 _

/-- C3 (amended): a readable, non-empty, correctly named archive whose
decoded project has zero blocks gives a Success outcome (never a Failure)
with `has_blocks` false, competence label Basic, and zero values for
`total_blocks`, the mastery points, every per-skill score, and the
duplicate, dead-code and naming counts. Two row fields are not zero, which
refutes the claim as stated (`C3_counterexample`): `mastery_total_max` is
the constant 36, and `babia_num_sprites` is still computed by the Babia
plugin when it succeeds, so it carries the archive's sprite count. -/
theorem C3_empty_project_basic_row (fname : String) (env : WorkerEnv)
    (sz : Nat) (hfile : env.file = some sz) (hnz : sz ≠ 0)
    (hbig : ¬ 100 * 1024 * 1024 < sz)
    (hext : pyEndsWith (pyLower fname) ".sb3" = true)
    (hdec : env.analysis.decode = .ok 0) :
    ∃ row : Row, worker_analyze fname env =
        { filename := fname, success := true, row := some row,
          error := none, has_blocks := false } ∧
      row.lookup "mastery_competence" = some (.vStr "Basic") ∧
      row.lookup "total_blocks" = some (.vNat 0) ∧
      row.lookup "mastery_total_points" = some (.vNat 0) ∧
      row.lookup "duplicateScripts" = some (.vNat 0) ∧
      row.lookup "deadCode" = some (.vNat 0) ∧
      row.lookup "spriteNaming" = some (.vInt 0) ∧
      row.lookup "backdropNaming" = some (.vInt 0) ∧
      (∀ sk ∈ DEFAULT_SKILL_POINTS.map Prod.fst,
        row.lookup sk = some (.vNat 0)) ∧
      row.lookup "mastery_total_max" = some (.vNat 36) ∧
      row.lookup "babia_num_sprites" = some (.vNat
        (match env.analysis.babia with
         | .ok b => b.num_sprites.getD 0
         | .error _ => 0)) := by
  cases henv : env.analysis.babia with
  | ok b =>
    have hsafe : analyze_file_safe env.analysis =
        .ok ({ get_empty_metrics with babia := b }, false) := by
      unfold analyze_file_safe
      rw [hdec, henv]
      rfl
    refine ⟨flatten_metrics fname { get_empty_metrics with babia := b },
      by simp [worker_analyze, hfile, hnz, hbig, hext, hsafe],
      rfl, rfl, rfl, rfl, rfl, rfl, rfl, ?_, rfl, rfl⟩
    intro sk hsk
    simp [DEFAULT_SKILL_POINTS] at hsk
    rcases hsk with rfl | rfl | rfl | rfl | rfl | rfl | rfl | rfl | rfl <;> rfl
  | error err =>
    have hsafe : analyze_file_safe env.analysis =
        .ok (get_empty_metrics, false) := by
      unfold analyze_file_safe
      rw [hdec, henv]
      rfl
    refine ⟨flatten_metrics fname get_empty_metrics,
      by simp [worker_analyze, hfile, hnz, hbig, hext, hsafe],
      rfl, rfl, rfl, rfl, rfl, rfl, rfl, ?_, rfl, rfl⟩
    intro sk hsk
    simp [DEFAULT_SKILL_POINTS] at hsk
    rcases hsk with rfl | rfl | rfl | rfl | rfl | rfl | rfl | rfl | rfl <;> rfl

/-- Witness for C3 at a concrete blockless archive whose Babia call reports
three sprites. -/
theorem C3_empty_project_basic_row_witness :
    ∃ row : Row, worker_analyze "123.sb3"
        { file := some 1000, analysis :=
          { decode := .ok 0, mastery := .error "unused",
            duplicate := .error "unused", dead := .error "unused",
            babia := .ok { num_sprites := some 3 },
            spriteNamingOut := .error "unused",
            backdropNamingOut := .error "unused" } } =
        { filename := "123.sb3", success := true, row := some row,
          error := none, has_blocks := false } ∧
      row.lookup "mastery_competence" = some (.vStr "Basic") ∧
      row.lookup "total_blocks" = some (.vNat 0) ∧
      row.lookup "mastery_total_points" = some (.vNat 0) ∧
      row.lookup "duplicateScripts" = some (.vNat 0) ∧
      row.lookup "deadCode" = some (.vNat 0) ∧
      row.lookup "spriteNaming" = some (.vInt 0) ∧
      row.lookup "backdropNaming" = some (.vInt 0) ∧
      (∀ sk ∈ DEFAULT_SKILL_POINTS.map Prod.fst,
        row.lookup sk = some (.vNat 0)) ∧
      row.lookup "mastery_total_max" = some (.vNat 36) ∧
      row.lookup "babia_num_sprites" = some (.vNat
        (match (Except.ok { num_sprites := some 3 } :
            Except String BabiaDict) with
         | .ok b => b.num_sprites.getD 0
         | .error _ => 0)) :=
  C3_empty_project_basic_row "123.sb3" _ 1000 rfl (by decide) (by decide)
    (by decide) rfl

/-- Counterexample to C3 as stated: for a concrete blockless project whose
Babia call reports three sprites, the Success row carries
`babia_num_sprites` 3 and `mastery_total_max` 36, so not every metric field
of the row is zero. -/
theorem C3_counterexample :
    (worker_analyze "123.sb3"
      { file := some 1000, analysis :=
        { decode := .ok 0, mastery := .error "unused",
          duplicate := .error "unused", dead := .error "unused",
          babia := .ok { num_sprites := some 3 },
          spriteNamingOut := .error "unused",
          backdropNamingOut := .error "unused" } }).success = true ∧
    (worker_analyze "123.sb3"
      { file := some 1000, analysis :=
        { decode := .ok 0, mastery := .error "unused",
          duplicate := .error "unused", dead := .error "unused",
          babia := .ok { num_sprites := some 3 },
          spriteNamingOut := .error "unused",
          backdropNamingOut := .error "unused" } }).has_blocks = false ∧
    ((worker_analyze "123.sb3"
      { file := some 1000, analysis :=
        { decode := .ok 0, mastery := .error "unused",
          duplicate := .error "unused", dead := .error "unused",
          babia := .ok { num_sprites := some 3 },
          spriteNamingOut := .error "unused",
          backdropNamingOut := .error "unused" } }).row.getD []).lookup
        "babia_num_sprites" = some (.vNat 3) ∧
    ((worker_analyze "123.sb3"
      { file := some 1000, analysis :=
        { decode := .ok 0, mastery := .error "unused",
          duplicate := .error "unused", dead := .error "unused",
          babia := .ok { num_sprites := some 3 },
          spriteNamingOut := .error "unused",
          backdropNamingOut := .error "unused" } }).row.getD []).lookup
        "mastery_total_max" = some (.vNat 36) := by
  refine ⟨by decide, by decide, by decide, by decide⟩

/-- If every attempt before the last failed and the last succeeded, the
retry loop of the with-metadata fetch returns the populated dictionary. -/
theorem fetchGo_last_ok (pid : Nat) (d : ApiJson) :
    ∀ (es : List String) (le : Option String),
      fetchGo pid le (es.map Except.error ++ [Except.ok d]) =
        metaOkRow pid d := by
  intro es
  induction es with
  | nil => intro le; rfl
  | cons e1 rest ih =>
    intro le
    simpa [fetchGo] using ih (some e1)

/-- If every attempt failed, the retry loop of the with-metadata fetch
returns the all-null dictionary carrying the last error. -/
theorem fetchGo_all_fail (pid : Nat) :
    ∀ (es : List String) (e : String) (le : Option String),
      fetchGo pid le ((es ++ [e]).map Except.error) = metaNullRow pid e := by
  intro es
  induction es with
  | nil => intro e le; rfl
  | cons e1 rest ih =>
    intro e le
    simpa [fetchGo] using ih e (some e1)

/-- If every attempt failed, the `extract_scratch_meta.py` retry loop
re-raises the last exception. -/
theorem fetchExGo_all_fail (pid : Nat) :
    ∀ (es : List String) (e : String) (le : Option String),
      fetchExGo pid le ((es ++ [e]).map Except.error) = .error e := by
  intro es
  induction es with
  | nil => intro e le; rfl
  | cons e1 rest ih =>
    intro e le
    cases rest with
    | nil => rfl
    | cons r2 rest2 =>
      have step : fetchExGo pid le
            (((e1 :: r2 :: rest2) ++ [e]).map Except.error) =
          fetchExGo pid (some e1) (((r2 :: rest2) ++ [e]).map Except.error) :=
        rfl
      rw [step]
      exact ih e (some e1)

/-- C6 (amended): with a retry budget of `retries + 1` attempts, the
with-metadata `fetch_project_metadata` returns the populated record (null
error marker) when only the last attempt succeeds, and the all-null record
with a non-null error marker when every attempt fails — never an exception —
and a successful `ProcessingOutcome` stays Success through enrichment. The
`extract_scratch_meta.py` variant of `fetch_project_metadata`, however,
re-raises the last exception when the budget is exhausted
(`C6_counterexample`); there the all-null row with the non-null `_error`
marker is produced by its caller `worker`, which catches the exception. -/
theorem C6_metadata_retry_budget :
    (∀ (pid : Nat) (es : List String) (d : ApiJson),
      fetch_project_metadata true pid (es.map Except.error ++ [Except.ok d]) =
        metaOkRow pid d) ∧
    (∀ (pid : Nat) (d : ApiJson),
      (metaOkRow pid d).lookup "_meta_error" = some .vNone) ∧
    (∀ (pid : Nat) (es : List String) (e : String),
      fetch_project_metadata true pid ((es ++ [e]).map Except.error) =
        metaNullRow pid e) ∧
    (∀ (pid : Nat) (err : String),
      (metaNullRow pid err).lookup "Project title" = some .vNone ∧
      (metaNullRow pid err).lookup "Author" = some .vNone ∧
      (metaNullRow pid err).lookup "Creation date" = some .vNone ∧
      (metaNullRow pid err).lookup "Modified date" = some .vNone ∧
      (metaNullRow pid err).lookup "Remix parent id" = some .vNone ∧
      (metaNullRow pid err).lookup "Remix root id" = some .vNone ∧
      (metaNullRow pid err).lookup "_meta_error" = some (.vStr err)) ∧
    (∀ (pid : Nat) (es : List String) (e : String),
      fetch_project_metadata_ex pid ((es ++ [e]).map Except.error) =
        .error e) ∧
    (∀ (path : String) (p : Nat) (es : List String) (e : String),
      get_project_id_from_filename path = some p →
      (worker_ex path ((es ++ [e]).map Except.error)).lookup "_error" =
        some (.vStr e)) ∧
    (∀ (avail : Bool) (attempts : Nat → List (Except String ApiJson))
       (r : ProcessingResult), r.success = true →
      ∃ row, handleOutcome true avail attempts r = .wrote row) := by
  refine ⟨?_, ?_, ?_, ?_, ?_, ?_, ?_⟩
  · intro pid es d
    simpa [fetch_project_metadata] using fetchGo_last_ok pid d es none
  · intro pid d
    rfl
  · intro pid es e
    simpa [fetch_project_metadata] using fetchGo_all_fail pid es e none
  · intro pid err
    exact ⟨rfl, rfl, rfl, rfl, rfl, rfl, rfl⟩
  · intro pid es e
    exact fetchExGo_all_fail pid es e none
  · intro path p es e hp
    have hfetch : fetch_project_metadata_ex p ((es ++ [e]).map Except.error) =
        .error e := fetchExGo_all_fail p es e none
    simp only [worker_ex, hp, hfetch]
    exact lookup_setItem _ _ _
  · intro avail attempts r hr
    refine ⟨buildSuccessRow true avail attempts r.filename (r.row.getD [])
      r.has_blocks, ?_⟩
    simp [handleOutcome, hr]

/-- Witness for C6: concrete instances of the success-on-last-attempt path,
the exhaustion path of both fetch variants, the worker conversion, and the
preserved Success outcome. -/
theorem C6_metadata_retry_budget_witness :
    (fetch_project_metadata true 754492227
        ([Except.error "HTTP 500"] ++ [Except.ok
          { author := some { username := some "alice" },
            history := some { created := some "2020", modified := some "2021" },
            remix := some { parent := some 1, root := some 2 },
            title := some "T", parent := some 1, root := some 2 }]) =
      metaOkRow 754492227
          { author := some { username := some "alice" },
            history := some { created := some "2020", modified := some "2021" },
            remix := some { parent := some 1, root := some 2 },
            title := some "T", parent := some 1, root := some 2 }) ∧
    (fetch_project_metadata true 754492227
        ((["HTTP 500", "HTTP 500"] ++ ["HTTP 503"]).map Except.error) =
      metaNullRow 754492227 "HTTP 503") ∧
    ((metaNullRow 754492227 "HTTP 503").lookup "_meta_error" =
      some (.vStr "HTTP 503")) ∧
    (fetch_project_metadata_ex 754492227
        ((["HTTP 500", "HTTP 500"] ++ ["HTTP 503"]).map Except.error) =
      .error "HTTP 503") ∧
    ((worker_ex "754492227.sb3"
        ((["HTTP 500", "HTTP 500"] ++ ["HTTP 503"]).map Except.error)).lookup
        "_error" = some (.vStr "HTTP 503")) ∧
    (∃ row, handleOutcome true true (fun _ => [Except.error "HTTP 500"])
        { filename := "754492227.sb3", success := true,
          row := some [("project", .vStr "754492227.sb3")],
          has_blocks := true } = .wrote row) := by
  refine ⟨?_, ?_, ?_, ?_, ?_, ?_⟩
  · exact C6_metadata_retry_budget.1 754492227 ["HTTP 500"] _
  · exact C6_metadata_retry_budget.2.2.1 754492227 ["HTTP 500", "HTTP 500"]
      "HTTP 503"
  · exact (C6_metadata_retry_budget.2.2.2.1 754492227 "HTTP 503").2.2.2.2.2.2
  · exact C6_metadata_retry_budget.2.2.2.2.1 754492227 ["HTTP 500", "HTTP 500"]
      "HTTP 503"
  · exact C6_metadata_retry_budget.2.2.2.2.2.1 "754492227.sb3" 754492227
      ["HTTP 500", "HTTP 500"] "HTTP 503" (by rfl)
  · exact C6_metadata_retry_budget.2.2.2.2.2.2 true _ _ rfl

/-- Counterexample to C6 as stated: with the default budget
(`retries` 2, so three attempts) and every attempt failing, the
`extract_scratch_meta.py` `fetch_project_metadata` raises the last error
instead of returning a MetadataRecord. -/
theorem C6_counterexample :
    fetch_project_metadata_ex 754492227
        [Except.error "HTTP 500", Except.error "HTTP 500",
         Except.error "HTTP 503"] =
      Except.error "HTTP 503" := rfl

/-- C9 (amended): with enrichment enabled, the numeric identifier is the
first run of three or more digits of the file stem; the Metadata Client is
invoked and its fields merged only when that identifier is present *and
nonzero* — the source's `if pid:` truthiness test conflates an extracted id
of 0 with absence (`C9_counterexample`) — otherwise the row is merged with
all-null metadata fields plus the marker, and in every case a successful
metric outcome is still written as a success. -/
theorem C9_enrichment_branches (fname : String) (row0 : Row) (hb avail : Bool)
    (attempts : Nat → List (Except String ApiJson)) :
    (∀ p : Nat, get_project_id_from_filename fname = some p → p ≠ 0 →
      buildSuccessRow true avail attempts fname row0 hb =
        dictUpdate (setItem row0 "has_blocks" (.vBool hb))
          (fetch_project_metadata avail p (attempts p))) ∧
    (get_project_id_from_filename fname = none →
      buildSuccessRow true avail attempts fname row0 hb =
        nullMetaAssign (setItem row0 "has_blocks" (.vBool hb))) ∧
    (∀ p : Nat, get_project_id_from_filename fname = some p → p = 0 →
      buildSuccessRow true avail attempts fname row0 hb =
        nullMetaAssign (setItem row0 "has_blocks" (.vBool hb))) ∧
    (∀ r : Row, (nullMetaAssign r).lookup "_meta_error" =
      some (.vStr "No project ID in filename")) ∧
    (∀ r : ProcessingResult, r.success = true →
      ∃ row, handleOutcome true avail attempts r = .wrote row) := by
  refine ⟨?_, ?_, ?_, ?_, ?_⟩
  · intro p hp hnz
    simp [buildSuccessRow, hp, hnz]
  · intro hp
    simp [buildSuccessRow, hp]
  · intro p hp hz
    simp [buildSuccessRow, hp, hz]
  · intro r
    exact lookup_setItem _ _ _
  · intro r hr
    refine ⟨buildSuccessRow true avail attempts r.filename (r.row.getD [])
      r.has_blocks, ?_⟩
    simp [handleOutcome, hr]

/-- Witness for C9 at concrete file names with a present nonzero id, an
absent id, and a present zero id. -/
theorem C9_enrichment_branches_witness :
    (buildSuccessRow true true (fun _ => [Except.error "HTTP 500"])
        "100.sb3" [] true =
      dictUpdate (setItem [] "has_blocks" (.vBool true))
        (fetch_project_metadata true 100 [Except.error "HTTP 500"])) ∧
    (buildSuccessRow true true (fun _ => [Except.error "HTTP 500"])
        "ab.sb3" [] true =
      nullMetaAssign (setItem [] "has_blocks" (.vBool true))) ∧
    (buildSuccessRow true true (fun _ => [Except.error "HTTP 500"])
        "000.sb3" [] true =
      nullMetaAssign (setItem [] "has_blocks" (.vBool true))) ∧
    ((nullMetaAssign []).lookup "_meta_error" =
      some (.vStr "No project ID in filename")) ∧
    (∃ row, handleOutcome true true (fun _ => [Except.error "HTTP 500"])
        { filename := "100.sb3", success := true, row := some [],
          has_blocks := true } = .wrote row) := by
  refine ⟨?_, ?_, ?_, ?_, ?_⟩
  · exact (C9_enrichment_branches "100.sb3" [] true true _).1 100 (by decide)
      (by decide)
  · exact (C9_enrichment_branches "ab.sb3" [] true true _).2.1 (by decide)
  · exact (C9_enrichment_branches "000.sb3" [] true true _).2.2.1 0 (by decide)
      rfl
  · exact (C9_enrichment_branches "x" [] true true
      (fun _ => [Except.error "HTTP 500"])).2.2.2.1 []
  · exact (C9_enrichment_branches "100.sb3" [] true true _).2.2.2.2 _ rfl

/-- Counterexample to C9 as stated: for `000.sb3` the identifier extracted
by the stated rule is present (the run `000`, value 0), yet the Metadata
Client is not invoked — even an oracle that would answer with a title is
ignored and the row instead gets the no-project-id marker with null
fields. -/
theorem C9_counterexample :
    get_project_id_from_filename "000.sb3" = some 0 ∧
    (buildSuccessRow true true
        (fun _ => [Except.ok { author := none, history := none, remix := none,
                               title := some "T", parent := none, root := none }])
        "000.sb3" (flatten_metrics "000.sb3" get_empty_metrics) true).lookup
      "Project title" = some Val.vNone ∧
    (buildSuccessRow true true
        (fun _ => [Except.ok { author := none, history := none, remix := none,
                               title := some "T", parent := none, root := none }])
        "000.sb3" (flatten_metrics "000.sb3" get_empty_metrics) true).lookup
      "_meta_error" = some (.vStr "No project ID in filename") := by
  refine ⟨by decide, by decide, by decide⟩

/-- The key sequence of every dictionary the with-metadata fetch returns. -/
theorem fetchGo_keys (pid : Nat) :
    ∀ (attempts : List (Except String ApiJson)) (le : Option String),
      (fetchGo pid le attempts).map Prod.fst =
        ["project_id", "Project title", "Author", "Creation date",
         "Modified date", "Remix parent id", "Remix root id", "_meta_error"] := by
  intro attempts
  induction attempts with
  | nil => intro le; rfl
  | cons a rest ih =>
    intro le
    cases a with
    | ok d => rfl
    | error e => simpa [fetchGo] using ih (some e)

/-- The with-metadata fetch always returns a dictionary with the same eight
keys, in the same order. -/
theorem fetch_project_metadata_keys (avail : Bool) (pid : Nat)
    (attempts : List (Except String ApiJson)) :
    (fetch_project_metadata avail pid attempts).map Prod.fst =
      ["project_id", "Project title", "Author", "Creation date",
       "Modified date", "Remix parent id", "Remix root id", "_meta_error"] := by
  unfold fetch_project_metadata
  by_cases h : avail
  · rw [if_pos h]
    exact fetchGo_keys pid attempts none
  · rw [if_neg h]
    rfl


/-- A key absent from a row's key sequence has no lookup result. -/
theorem lookup_eq_none_of_not_mem (k : String) :
    ∀ r : Row, k ∉ r.map Prod.fst → r.lookup k = none := by
  intro r
  induction r with
  | nil => intro _; rfl
  | cons p rest ih =>
    obtain ⟨pk, pv⟩ := p
    intro hk
    simp only [List.map_cons, List.mem_cons] at hk
    push_neg at hk
    have hne : (k == pk) = false := beq_eq_false_iff_ne.mpr hk.1
    simp only [List.lookup, hne]
    exact ih hk.2

/-- Setting a fresh key appends it to the key sequence. -/
theorem setItem_keys_append (r : Row) (k : String) (v : Val)
    (ks : List String) (hk : r.map Prod.fst = ks) (hnot : k ∉ ks) :
    (setItem r k v).map Prod.fst = ks ++ [k] := by
  subst hk
  have hnone : r.lookup k = none := lookup_eq_none_of_not_mem k r hnot
  unfold setItem
  rw [hnone]
  simp

/-- The key sequence of every row `flatten_metrics` produces. -/
theorem flatten_metrics_keys (fname : String) (m : Metrics) :
    (flatten_metrics fname m).map Prod.fst =
      ["project", "total_blocks", "mastery_total_points", "mastery_total_max",
       "mastery_competence", "Abstraction", "Parallelization", "Logic",
       "Synchronization", "FlowControl", "UserInteractivity",
       "DataRepresentation", "MathOperators", "MotionOperators",
       "duplicateScripts", "deadCode", "spriteNaming", "backdropNaming",
       "babia_num_sprites"] := by
  simp [flatten_metrics, DEFAULT_SKILL_POINTS]

/-- The null-metadata assignments append exactly the eight metadata keys. -/
theorem nullMetaAssign_keys (r : Row) (ks : List String)
    (hk : r.map Prod.fst = ks)
    (hfresh : ∀ k ∈ ["project_id", "Project title", "Author", "Creation date",
      "Modified date", "Remix parent id", "Remix root id", "_meta_error"],
      k ∉ ks) :
    (nullMetaAssign r).map Prod.fst =
      ks ++ ["project_id", "Project title", "Author", "Creation date",
        "Modified date", "Remix parent id", "Remix root id", "_meta_error"] := by
  have h1 := setItem_keys_append r "project_id" Val.vNone ks hk
    (hfresh _ (by simp))
  have h2 := setItem_keys_append _ "Project title" Val.vNone _ h1 (by
    simp only [List.mem_append, List.mem_singleton]
    push_neg
    exact ⟨hfresh _ (by simp), by decide⟩)
  have h3 := setItem_keys_append _ "Author" Val.vNone _ h2 (by
    simp only [List.mem_append, List.mem_singleton]
    push_neg
    exact ⟨⟨hfresh _ (by simp), by decide⟩, by decide⟩)
  have h4 := setItem_keys_append _ "Creation date" Val.vNone _ h3 (by
    simp only [List.mem_append, List.mem_singleton]
    push_neg
    exact ⟨⟨⟨hfresh _ (by simp), by decide⟩, by decide⟩, by decide⟩)
  have h5 := setItem_keys_append _ "Modified date" Val.vNone _ h4 (by
    simp only [List.mem_append, List.mem_singleton]
    push_neg
    exact ⟨⟨⟨⟨hfresh _ (by simp), by decide⟩, by decide⟩, by decide⟩,
      by decide⟩)
  have h6 := setItem_keys_append _ "Remix parent id" Val.vNone _ h5 (by
    simp only [List.mem_append, List.mem_singleton]
    push_neg
    exact ⟨⟨⟨⟨⟨hfresh _ (by simp), by decide⟩, by decide⟩, by decide⟩,
      by decide⟩, by decide⟩)
  have h7 := setItem_keys_append _ "Remix root id" Val.vNone _ h6 (by
    simp only [List.mem_append, List.mem_singleton]
    push_neg
    exact ⟨⟨⟨⟨⟨⟨hfresh _ (by simp), by decide⟩, by decide⟩, by decide⟩,
      by decide⟩, by decide⟩, by decide⟩)
  have h8 := setItem_keys_append _ "_meta_error"
    (Val.vStr "No project ID in filename") _ h7 (by
    simp only [List.mem_append, List.mem_singleton]
    push_neg
    exact ⟨⟨⟨⟨⟨⟨⟨hfresh _ (by simp), by decide⟩, by decide⟩, by decide⟩,
      by decide⟩, by decide⟩, by decide⟩, by decide⟩)
  simpa [nullMetaAssign, List.append_assoc] using h8

/-- C2 (amended): every line the writer emits has exactly the Schema's
columns in the Schema's order, a row holding a column outside the Schema is
rejected (the `ValueError` of `csv.DictWriter` with its default
`extrasaction`), and every row the with-metadata pipeline itself produces
has exactly the static Schema's ordered column set. However, a row
*missing* Schema columns is not rejected: the writer emits it, filling the
missing cells with the rest value (`C2_counterexample`). -/
theorem C2_schema_stability :
    (∀ (fieldnames : List String) (row : Row) (out : List Val),
      dictWriterWriteRow fieldnames row = .ok out →
      out = fieldnames.map (fun f => (row.lookup f).getD .vNone)) ∧
    (∀ (fieldnames : List String) (row : Row) (q : String × Val),
      q ∈ row → fieldnames.contains q.1 = false →
      dictWriterWriteRow fieldnames row =
        .error "ValueError: dict contains fields not in fieldnames") ∧
    (∀ (fetchMeta avail : Bool)
       (attempts : Nat → List (Except String ApiJson))
       (fname : String) (m : Metrics) (hb : Bool),
      (buildSuccessRow fetchMeta avail attempts fname
          (flatten_metrics fname m) hb).map Prod.fst =
        get_fieldnames fetchMeta) := by
  refine ⟨?_, ?_, ?_⟩
  · intro fieldnames row out hok
    unfold dictWriterWriteRow at hok
    by_cases hall : row.all (fun p => fieldnames.contains p.1)
    · rw [if_pos hall] at hok
      exact (Except.ok.inj hok).symm
    · rw [if_neg hall] at hok
      exact absurd hok (by simp)
  · intro fieldnames row q hq hnot
    have hfalse : row.all (fun p => fieldnames.contains p.1) = false := by
      cases hall : row.all (fun p => fieldnames.contains p.1)
      · rfl
      · have h2 := List.all_eq_true.mp hall q hq
        rw [hnot] at h2
        exact absurd h2 (by simp)
    unfold dictWriterWriteRow
    rw [hfalse]
    rfl
  · intro fetchMeta avail attempts fname m hb
    have hbase : (setItem (flatten_metrics fname m) "has_blocks"
        (Val.vBool hb)).map Prod.fst =
        ["project", "total_blocks", "mastery_total_points",
         "mastery_total_max", "mastery_competence", "Abstraction",
         "Parallelization", "Logic", "Synchronization", "FlowControl",
         "UserInteractivity", "DataRepresentation", "MathOperators",
         "MotionOperators", "duplicateScripts", "deadCode", "spriteNaming",
         "backdropNaming", "babia_num_sprites"] ++ ["has_blocks"] :=
      setItem_keys_append _ _ _ _ (flatten_metrics_keys fname m) (by decide)
    cases fetchMeta with
    | false =>
      have heq : buildSuccessRow false avail attempts fname
          (flatten_metrics fname m) hb =
          setItem (flatten_metrics fname m) "has_blocks" (Val.vBool hb) := by
        simp [buildSuccessRow]
      rw [heq, hbase]
      decide
    | true =>
      cases hp : get_project_id_from_filename fname with
      | none =>
        have heq : buildSuccessRow true avail attempts fname
            (flatten_metrics fname m) hb =
            nullMetaAssign (setItem (flatten_metrics fname m) "has_blocks"
              (Val.vBool hb)) := by
          simp [buildSuccessRow, hp]
        rw [heq, nullMetaAssign_keys _ _ hbase (by decide)]
        decide
      | some p =>
        by_cases hz : p = 0
        · have heq : buildSuccessRow true avail attempts fname
              (flatten_metrics fname m) hb =
              nullMetaAssign (setItem (flatten_metrics fname m) "has_blocks"
                (Val.vBool hb)) := by
            simp [buildSuccessRow, hp, hz]
          rw [heq, nullMetaAssign_keys _ _ hbase (by decide)]
          decide
        · have heq : buildSuccessRow true avail attempts fname
              (flatten_metrics fname m) hb =
              dictUpdate (setItem (flatten_metrics fname m) "has_blocks"
                (Val.vBool hb))
                (fetch_project_metadata avail p (attempts p)) := by
            simp [buildSuccessRow, hp, hz]
          have hnone : ∀ q ∈ fetch_project_metadata avail p (attempts p),
              (setItem (flatten_metrics fname m) "has_blocks"
                (Val.vBool hb)).lookup q.1 = none := by
            intro q hq
            have hkey : q.1 ∈ (fetch_project_metadata avail p
                (attempts p)).map Prod.fst :=
              List.mem_map_of_mem Prod.fst hq
            rw [fetch_project_metadata_keys] at hkey
            refine lookup_eq_none_of_not_mem _ _ ?_
            rw [hbase]
            simp only [List.mem_cons, List.not_mem_nil, or_false] at hkey
            rcases hkey with h | h | h | h | h | h | h | h <;> rw [h] <;>
              decide
          rw [heq, dictUpdate_keys _ _ hnone, hbase,
            fetch_project_metadata_keys]
          decide

/-- Witness for C2: a conforming row is emitted in schema order, a row with
a column outside the schema is rejected, and a concrete pipeline row
carries exactly the full schema's keys. -/
theorem C2_schema_stability_witness :
    ([Val.vNat 1] = (["a"].map (fun f =>
      (([("a", Val.vNat 1)] : Row).lookup f).getD .vNone))) ∧
    (dictWriterWriteRow ["a"] [("b", Val.vNat 1)] =
      .error "ValueError: dict contains fields not in fieldnames") ∧
    ((buildSuccessRow true true (fun _ => [Except.error "HTTP 500"])
        "100.sb3" (flatten_metrics "100.sb3" get_empty_metrics) true).map
        Prod.fst = get_fieldnames true) := by
  refine ⟨?_, ?_, ?_⟩
  · exact C2_schema_stability.1 ["a"] [("a", Val.vNat 1)] [Val.vNat 1] rfl
  · exact C2_schema_stability.2.1 ["a"] [("b", Val.vNat 1)]
      ("b", Val.vNat 1) (by simp) rfl
  · exact C2_schema_stability.2.2 true true _ "100.sb3" get_empty_metrics true

/-- Counterexample to C2 as stated: a row whose column set is a strict
subset of the Schema (here only `project`) is not rejected — the writer
emits a full-width line, filling the 27 missing cells with the rest
value. -/
theorem C2_counterexample :
    dictWriterWriteRow (get_fieldnames true) [("project", Val.vStr "x")] =
      .ok (Val.vStr "x" :: List.replicate 27 Val.vNone) := by
  rfl
